import Mathlib

/-
Verification development for the MOOD-TILES repository (a Flask app that
logs Spotify listening history, classifies each track's mood from a Deezer
loudness metric, and renders monthly mood grids).

Shallow embedding conventions:
* Python floats (the Deezer `gain` metric, mood scores) are modelled as ℚ.
* Python `None` is `Option.none`; dicts keyed by strings are association
  lists with Python-dict update semantics (replace in place, else append).
* `datetime` values are records of calendar fields; `fromisoformat(...)
  .replace(tzinfo=None)` keeps the wall-clock fields and drops the offset,
  so a parsed playback timestamp is a pair (wall-clock fields, offset) and
  normalization projects out the wall clock.
* Network calls to the Deezer catalog are an oracle argument: a response is
  either `err` (any raised exception: network error or `raise_for_status`)
  or `ok` with the payload.  The source's `except` blocks collapse every
  failure into `None` / `{}`, which the embedding mirrors.
* Fernet encryption of tokens is modelled as identity storage (encrypt and
  decrypt are inverse; only the round-tripped value is ever observed).

The label strings are taken byte-for-byte from the source.  Note that
`api/app.py` is stored with a double-encoded (mojibake) byte sequence for
the emoji inside the `monthly` route's `mood_scores` dictionary and its
`'No Data …'` / `'Unknown …'` literals, so those strings differ from the
correctly-encoded labels produced by `api/database.py`.  The escapes below
reproduce exactly what the Python interpreter sees when it decodes each
file as UTF-8.
-/

/-- Labels produced by `classify_mood` / listed by `get_available_moods`
(`api/database.py`, correctly encoded). -/
def unknownMood : String := "Unknown 🤷"

def angryMood : String := "Angry 😠"

def energeticMood : String := "Energetic 🔥"

def happyMood : String := "Happy 😊"

def chillMood : String := "Chill 😎"

def calmMood : String := "Calm 🧘"

def sadMood : String := "Sad 😢"

def depressedMood : String := "Depressed 😞"

/-- `classify_mood` (api/database.py lines 39-57): maps the `gain` entry of
the metrics dict (absent ↦ `none`) to a mood label via a top-down if-chain. -/
def classify_mood (gain : Option ℚ) : String :=
  match gain with
  | none => unknownMood
  | some g =>
    if g > 3 then angryMood
    else if g > 0 then energeticMood
    else if g > -2 then happyMood
    else if g > -6 then chillMood
    else if g > -10 then calmMood
    else if g > -14 then sadMood
    else depressedMood

/-- `get_available_moods` (api/database.py lines 59-69): the fixed dropdown
label set; it does not contain the Unknown label. -/
def get_available_moods : List String :=
  [angryMood, energeticMood, happyMood, chillMood, calmMood, sadMood, depressedMood]

/-- Naive `datetime` value (calendar fields, no timezone). -/
structure DT where
  year : Nat
  month : Nat
  day : Nat
  hour : Nat
  minute : Nat
  second : Nat
deriving DecidableEq, Repr

/-- Lexicographic strict order on naive datetimes (Python `datetime <`). -/
def DT.ltb (a b : DT) : Bool :=
  Nat.blt a.year b.year ||
    (Nat.beq a.year b.year &&
      (Nat.blt a.month b.month ||
        (Nat.beq a.month b.month &&
          (Nat.blt a.day b.day ||
            (Nat.beq a.day b.day &&
              (Nat.blt a.hour b.hour ||
                (Nat.beq a.hour b.hour &&
                  (Nat.blt a.minute b.minute ||
                    (Nat.beq a.minute b.minute && Nat.blt a.second b.second)))))))))

/-- Lexicographic non-strict order on naive datetimes (Python `datetime <=`). -/
def DT.leb (a b : DT) : Bool :=
  DT.ltb a b || a == b

/-- A parsed playback timestamp: `datetime.fromisoformat` yields the
wall-clock fields plus an optional UTC offset. -/
structure PlayedAt where
  wall : DT
  utcOffsetMinutes : Option Int
deriving DecidableEq, Repr

/-- `.replace(tzinfo=None)` (api/database.py line 163): keep the wall-clock
fields, drop the offset. -/
def normalize_played_at (p : PlayedAt) : DT := p.wall

/-- Row of the `tracks` table (api/models.py). -/
structure Track where
  id : Nat
  spotify_id : String
  name : String
  artist : String
  deezer_id : Option Int := none
  gain : Option ℚ := none
  mood : Option String := none
deriving DecidableEq, Repr

/-- Row of the `listens` table (api/models.py): exactly the unique triple. -/
structure Listen where
  user_id : Nat
  track_id : Nat
  played_at : DT
deriving DecidableEq, Repr

/-- Row of the `users` table (api/models.py); tokens stored decrypted (the
Fernet round trip is the identity on what the code observes), and the
JSON-serialized `mood_overrides` dict as an association list. -/
structure User where
  id : Nat
  access_token : Option String := none
  refresh_token : Option String := none
  token_expires_at : Option Int := none
  overrides : List (String × String) := []
deriving DecidableEq, Repr

/-- Python dict lookup `d.get(k)` on an association list. -/
def dictGet (l : List (String × String)) (k : String) : Option String :=
  (l.find? (fun p => p.1 == k)).map (fun p => p.2)

/-- Python dict update `d[k] = v`: replace in place if the key exists,
otherwise append (insertion order preserved). -/
def dictSet (l : List (String × String)) (k v : String) : List (String × String) :=
  if (l.find? (fun p => p.1 == k)).isSome then
    l.map (fun p => if p.1 == k then (k, v) else p)
  else
    l ++ [(k, v)]

/-- Python `del d[k]` guarded by `if k in d` (User.remove_mood_override). -/
def dictRemove (l : List (String × String)) (k : String) : List (String × String) :=
  l.filter (fun p => p.1 != k)

/-- `User.get_mood_overrides` (api/models.py lines 83-90): the JSON dict,
`{}` when the column is NULL.  In the embedding the deserialized dict is
the stored association list itself. -/
def User.get_mood_overrides (u : User) : List (String × String) := u.overrides

/-- `User.set_mood_override` (api/models.py lines 92-97). -/
def User.set_mood_override (u : User) (track_id : Nat) (mood : String) : User :=
  { u with overrides := dictSet u.get_mood_overrides (toString track_id) mood }

/-- `User.remove_mood_override` (api/models.py lines 99-105). -/
def User.remove_mood_override (u : User) (track_id : Nat) : User :=
  { u with overrides := dictRemove u.get_mood_overrides (toString track_id) }

/-- `User.get_track_mood` (api/models.py lines 107-113):
`overrides.get(str(track.id), track.mood)`. -/
def User.get_track_mood (u : User) (t : Track) : Option String :=
  match dictGet u.get_mood_overrides (toString t.id) with
  | some m => some m
  | none => t.mood

/-- The relational store: the three tables plus the autoincrement counter
for track primary keys. -/
structure DB where
  tracks : List Track
  listens : List Listen
  nextTrackId : Nat
deriving DecidableEq, Repr

/-- Outcome of the Deezer search request in `get_deezer_id`: `err` is any
raised exception (network failure or a 4xx/5xx via `raise_for_status`),
`ok` carries the JSON `data` array of result ids. -/
inductive SearchResp where
  | err : SearchResp
  | ok : List Int → SearchResp
deriving DecidableEq, Repr

/-- Outcome of the Deezer track request in `get_deezer_metrics`: `err` is
any raised exception, `ok` carries the optional `gain` field of the JSON
payload (the other fields are never read downstream). -/
inductive MetricsResp where
  | err : MetricsResp
  | ok : Option ℚ → MetricsResp
deriving DecidableEq, Repr

/-- The secondary catalog (Deezer) as an oracle: responses of the two
endpoints as a function of the request parameters. -/
structure Deezer where
  search : String → String → SearchResp
  metrics : Int → MetricsResp

/-- `get_deezer_id` (api/database.py lines 8-20): first search result's id;
`None` on an empty result or any exception. -/
def get_deezer_id (dz : Deezer) (name artist : String) : Option Int :=
  match dz.search name artist with
  | .err => none
  | .ok [] => none
  | .ok (r :: _) => some r

/-- `get_deezer_metrics` (api/database.py lines 22-37) followed by
`.get('gain')`: the gain field of the payload, `None` when the field is
absent or the request raised (the source returns `{}` then). -/
def get_deezer_metrics_gain (dz : Deezer) (deezer_id : Int) : Option ℚ :=
  match dz.metrics deezer_id with
  | .err => none
  | .ok g => g

/-- Track payload from the Spotify API as read by `get_or_create_track`:
`id`, `name`, and the first artist's name. -/
structure SpotifyTrack where
  sid : String
  name : String
  artist : String
deriving DecidableEq, Repr

/-- `get_or_create_track` (api/database.py lines 71-112).  Returns the
track, the updated store, and the number of secondary-catalog requests
performed.  An existing track (matched by `spotify_id`) is returned
unchanged with no catalog request; otherwise the track is created, its
mood classified once (Unknown when the search finds nothing), and the row
persisted. -/
def get_or_create_track (dz : Deezer) (db : DB) (st : SpotifyTrack) :
    Track × DB × Nat :=
  match db.tracks.find? (fun t => t.spotify_id == st.sid) with
  | some t => (t, db, 0)
  | none =>
    match get_deezer_id dz st.name st.artist with
    | some d =>
      let g := get_deezer_metrics_gain dz d
      let t : Track :=
        { id := db.nextTrackId, spotify_id := st.sid, name := st.name,
          artist := st.artist, deezer_id := some d, gain := g,
          mood := some (classify_mood g) }
      (t, { db with tracks := db.tracks ++ [t], nextTrackId := db.nextTrackId + 1 }, 2)
    | none =>
      let t : Track :=
        { id := db.nextTrackId, spotify_id := st.sid, name := st.name,
          artist := st.artist, mood := some unknownMood }
      (t, { db with tracks := db.tracks ++ [t], nextTrackId := db.nextTrackId + 1 }, 1)

/-- One recently-played item from the Spotify API: the `played_at` ISO
timestamp (already parsed, see `PlayedAt`) and the track payload. -/
structure SpotifyItem where
  played_at : PlayedAt
  track : SpotifyTrack
deriving DecidableEq, Repr

/-- Body of the `for item in spotify_items` loop of `save_listening_history`
(api/database.py lines 160-180): normalize the timestamp, resolve the
track, and insert the listen unless the (user, track, played_at) triple is
already visible (session autoflush makes same-batch inserts visible to the
dedup query). -/
def save_one (dz : Deezer) (uid : Nat) (acc : DB × Nat) (item : SpotifyItem) :
    DB × Nat :=
  let played := normalize_played_at item.played_at
  let r := get_or_create_track dz acc.1 item.track
  let track := r.1
  let db1 := r.2.1
  match db1.listens.find? (fun l =>
      l.user_id == uid && l.track_id == track.id && l.played_at == played) with
  | some _ => (db1, acc.2)
  | none =>
    ({ db1 with listens := db1.listens ++ [⟨uid, track.id, played⟩] }, acc.2 + 1)

/-- `save_listening_history` (api/database.py lines 148-188): fold the loop
over the batch, returning the count of newly inserted rows and the updated
store (the single commit at the end is the final store state). -/
def save_listening_history (dz : Deezer) (db : DB) (uid : Nat)
    (items : List SpotifyItem) : Nat × DB :=
  let r := items.foldl (save_one dz uid) (db, 0)
  (r.2, r.1)

/-- `update_user_mood_override` (api/database.py lines 114-146): validate
the mood against the fixed set, look the track up by primary key, then
either remove the override (requested mood equals the track's default) or
store it.  Returns the success flag and the updated store and user. -/
def update_user_mood_override (db : DB) (u : User) (track_id : Nat)
    (new_mood : String) : Bool × DB × User :=
  if new_mood ∈ get_available_moods then
    match db.tracks.find? (fun t => t.id == track_id) with
    | none => (false, db, u)
    | some track =>
      if track.mood == some new_mood then
        (true, db, u.remove_mood_override track_id)
      else
        (true, db, u.set_mood_override track_id new_mood)
  else
    (false, db, u)

/-- Python truthiness of the optional `track_id` JSON field (`not track_id`
is true for `None` and for `0`). -/
def truthyNat (x : Option Nat) : Bool :=
  match x with
  | none => false
  | some n => n != 0

/-- Python truthiness of the optional `mood` JSON field (`not new_mood` is
true for `None` and for the empty string). -/
def truthyStr (x : Option String) : Bool :=
  match x with
  | none => false
  | some s => s != ""

/-- HTTP response of the `/update-mood` endpoint: status code, `success`
flag and optional `error` string of the JSON body. -/
structure HttpResp where
  status : Nat
  success : Bool
  error : Option String
deriving DecidableEq, Repr

/-- `update_mood` route (api/app.py lines 179-200): reject requests missing
`track_id` or `mood` with 400, call `update_user_mood_override`, and map
its failure to 400 with an explicit reason. -/
def update_mood (db : DB) (u : User) (track_id : Option Nat)
    (mood : Option String) : HttpResp × DB × User :=
  if truthyNat track_id && truthyStr mood then
    let r := update_user_mood_override db u (track_id.getD 0) (mood.getD "")
    if r.1 then
      (⟨200, true, none⟩, r.2)
    else
      (⟨400, false, some "Invalid mood or track"⟩, r.2)
  else
    (⟨400, false, some "Missing track_id or mood"⟩, db, u)

/-- Outcome of `sp_oauth.refresh_access_token` in `refresh_user_tokens`:
`err` is any raised exception, `ok` carries the new token pair and the
`expires_in` seconds of the token info. -/
inductive RefreshResp where
  | err : RefreshResp
  | ok : String → String → Int → RefreshResp
deriving DecidableEq, Repr

/-- `User.is_token_expired` (api/models.py lines 75-79): expired when the
expiry is unset or `utcnow() >= token_expires_at` (instants as integers). -/
def User.is_token_expired (u : User) (now : Int) : Bool :=
  match u.token_expires_at with
  | none => true
  | some t => decide (t ≤ now)

/-- `User.set_tokens` (api/models.py lines 62-67), tokens stored through the
Fernet round trip. -/
def User.set_tokens (u : User) (access refresh : String) (expires_at : Int) : User :=
  { u with access_token := some access, refresh_token := some refresh,
           token_expires_at := some expires_at }

/-- `refresh_user_tokens` (api/auth.py lines 40-68): fail when the stored
refresh token is missing or the OAuth refresh call raises; on success store
the new tokens with expiry `now + expires_in`. -/
def refresh_user_tokens (resp : RefreshResp) (now : Int) (u : User) :
    Bool × User :=
  match u.refresh_token with
  | none => (false, u)
  | some _ =>
    match resp with
    | .err => (false, u)
    | .ok access refresh expires_in =>
      (true, u.set_tokens access refresh (now + expires_in))

/-- Response of the auth-guard wrapper: a redirect or the wrapped view's
page. -/
inductive GuardResp where
  | redirect : String → GuardResp
  | page : GuardResp
deriving DecidableEq, Repr

/-- Observable outcome of one request through the `login_required` wrapper:
the response, whether `session.clear()` ran, and whether the wrapped view
function (the only place streaming-API calls happen) was invoked. -/
structure GuardOutcome where
  resp : GuardResp
  sessionCleared : Bool
  viewInvoked : Bool
deriving DecidableEq, Repr

/-- Tail of the wrapper (api/auth.py lines 100-107): create the Spotify
client and call the view; any exception clears the session and redirects. -/
def run_view (viewRaises : Bool) : GuardOutcome :=
  if viewRaises then ⟨.redirect "/login", true, true⟩
  else ⟨.page, false, true⟩

/-- `login_required` wrapper (api/auth.py lines 70-110): check the session
user id, load the user, refresh an expired credential (clearing the session
and redirecting to /login when the refresh fails), then run the view. -/
def login_required_wrapper (resp : RefreshResp) (now : Int) (users : List User)
    (sessionUserId : Option Nat) (viewRaises : Bool) : GuardOutcome :=
  match sessionUserId with
  | none => ⟨.redirect "/login", false, false⟩
  | some uid =>
    match users.find? (fun u => u.id == uid) with
    | none => ⟨.redirect "/login", true, false⟩
    | some user =>
      if user.is_token_expired now then
        let r := refresh_user_tokens resp now user
        if r.1 then run_view viewRaises
        else ⟨.redirect "/login", true, false⟩
      else run_view viewRaises

/-- `%m` / `%d` zero padding of `strftime`. -/
def pad2 (n : Nat) : String :=
  if n < 10 then "0" ++ toString n else toString n

/-- `datetime(y, m, d).strftime('%Y-%m-%d')` for four-digit years. -/
def date_string (y m d : Nat) : String :=
  toString y ++ "-" ++ pad2 m ++ "-" ++ pad2 d

/-- `played_at.strftime('%Y-%m-%d')` (the `day_key` of the monthly route). -/
def DT.dateString (d : DT) : String := date_string d.year d.month d.day

/-- `calendar.monthrange(year, month)[1]`: days in the month, with the
Gregorian leap-year rule. -/
def days_in_month (y m : Nat) : Nat :=
  if m == 2 then
    if y % 4 == 0 && (y % 100 != 0 || y % 400 == 0) then 29 else 28
  else if m == 4 || m == 6 || m == 9 || m == 11 then 30
  else 31

/-- `month_days` of the monthly route (api/app.py line 224): the date
strings of every calendar day of the month, in order. -/
def month_days (y m : Nat) : List String :=
  (List.range (days_in_month y m)).map (fun i => date_string y m (i + 1))

/-- One element of `get_monthly_listens_with_moods`' result as consumed by
the monthly route: the listen's timestamp and the user's effective mood
(plus the is-custom flag the route ignores). -/
structure ListenWithMood where
  played_at : DT
  mood : Option String
  is_custom : Bool
deriving DecidableEq, Repr

/-- First day of the month after (y, m) (api/database.py lines 228-232). -/
def month_end (y m : Nat) : DT :=
  if m == 12 then ⟨y + 1, 1, 1, 0, 0, 0⟩ else ⟨y, m + 1, 1, 0, 0, 0⟩

/-- `get_monthly_listens_with_moods` (api/database.py lines 216-250): join
listens with tracks, keep the user's listens with `start <= played_at <
end`, and attach the effective mood from the override map. -/
def get_monthly_listens_with_moods (db : DB) (u : User) (y m : Nat) :
    List ListenWithMood :=
  let start : DT := ⟨y, m, 1, 0, 0, 0⟩
  ((db.listens.filter (fun l =>
      l.user_id == u.id && DT.leb start l.played_at &&
        DT.ltb l.played_at (month_end y m))).filterMap (fun l =>
    (db.tracks.find? (fun t => t.id == l.track_id)).map (fun t =>
      { played_at := l.played_at, mood := u.get_track_mood t,
        is_custom := (dictGet u.get_mood_overrides (toString t.id)).isSome })))

/-- The `mood_scores` dictionary of the monthly route (api/app.py lines
229-238).  The keys are reproduced byte-for-byte from the file as the
Python interpreter decodes it: the emoji are mojibake (double-encoded), so
no key equals any label stored by `classify_mood` / `get_available_moods`. -/
def mood_scores : List (String × ℚ) :=
  [("Angry ğŸ˜ ", 5),
   ("Energetic ğŸ”¥", 4),
   ("Happy ğŸ˜Š", 3),
   ("Chill ğŸ˜", 2),
   ("Calm ğŸ§˜", 1),
   ("Sad ğŸ˜¢", 0),
   ("Depressed ğŸ˜", -1),
   ("Unknown ğŸ¤·", 5 / 2)]

/-- The mojibake `'Unknown ğŸ¤·'` literal of the monthly route (api/app.py
line 245), distinct from `unknownMood`. -/
def unknownMojibake : String := "Unknown ğŸ¤·"

/-- The mojibake `'No Data ğŸ“­'` literal of the monthly route (api/app.py
line 247). -/
def noDataLabel : String := "No Data ğŸ“­"

/-- Membership test `m in mood_scores` of the monthly route; `None` (a
listen whose track has no stored mood) is never a key. -/
def in_mood_scores (m : Option String) : Bool :=
  match m with
  | none => false
  | some s => (mood_scores.find? (fun p => p.1 == s)).isSome

/-- `mood_scores[m]` for a valid mood (0 as the impossible fallback). -/
def score_of (m : Option String) : ℚ :=
  match m with
  | none => 0
  | some s => ((mood_scores.find? (fun p => p.1 == s)).map (fun p => p.2)).getD 0

/-- Python `min(keys, key=f)`: the first element attaining the minimum. -/
def min_by (f : String → ℚ) (best : String) : List String → String
  | [] => best
  | x :: xs => if f x < f best then min_by f x xs else min_by f best xs

/-- Per-day dominant-mood reduction of the monthly route (api/app.py lines
226-247): empty day ↦ the No-Data label; otherwise average the scores of
the moods found in `mood_scores` and snap to the key with the closest
score (first key wins ties), falling back to the mojibake Unknown literal
when no mood matched a key. -/
def dominant_mood (moods : List (Option String)) : String :=
  if moods.isEmpty then noDataLabel
  else
    let valid := moods.filter in_mood_scores
    if valid.isEmpty then unknownMojibake
    else
      let avg := (valid.map score_of).sum / (valid.length : ℚ)
      min_by (fun k => |score_of (some k) - avg|)
        ("Angry ğŸ˜ ")
        ((mood_scores.map (fun p => p.1)).drop 1)

/-- The moods collected for one day by the `daily_moods` defaultdict
grouping (api/app.py lines 217-222): the moods of the month's listens whose
`day_key` equals the day, in list order. -/
def moods_for_day (items : List ListenWithMood) (day : String) :
    List (Option String) :=
  (items.filter (fun it => it.played_at.dateString == day)).map (fun it => it.mood)

/-- One cell of the rendered mood grid. -/
structure GridEntry where
  day : String
  mood : String
  count : Nat
deriving DecidableEq, Repr

/-- The `mood_grid` built by the POST branch of the `monthly` route
(api/app.py lines 222-248): one entry per calendar day of the month, with
that day's dominant mood and listen count. -/
def monthly_mood_grid (db : DB) (u : User) (y m : Nat) : List GridEntry :=
  let items := get_monthly_listens_with_moods db u y m
  (month_days y m).map (fun day =>
    let moods := moods_for_day items day
    { day := day, mood := dominant_mood moods, count := moods.length })

/-- Both tables only ever grow by appending rows during ingest. -/
def dbGrows (db db' : DB) : Prop :=
  (∃ ts, db'.tracks = db.tracks ++ ts) ∧ (∃ ls, db'.listens = db.listens ++ ls)

/-- A playback event is settled in a store: its track resolves to a stored
row and the (user, track, normalized timestamp) triple is stored. -/
def itemSettled (uid : Nat) (db : DB) (item : SpotifyItem) : Prop :=
  ∃ t, db.tracks.find? (fun tr => tr.spotify_id == item.track.sid) = some t ∧
    (⟨uid, t.id, normalize_played_at item.played_at⟩ : Listen) ∈ db.listens

/-- A Deezer oracle whose every request raises. -/
def dzDown : Deezer := { search := fun _ _ => .err, metrics := fun _ => .err }

/-- A Deezer oracle answering a fixed search hit with a fixed gain. -/
def dzConst (d : Int) (g : ℚ) : Deezer :=
  { search := fun _ _ => .ok [d], metrics := fun _ => .ok (some g) }

/-- Scenario user (no overrides, id 1). -/
def mayUser : User := { id := 1 }

/-- Scenario store with no listens at all. -/
def emptyMayDB : DB := { tracks := [], listens := [], nextTrackId := 1 }

/-- Scenario track whose default mood is Happy. -/
def happyTrack : Track :=
  { id := 1, spotify_id := "sp-h", name := "H", artist := "A",
    gain := some (-1), mood := some happyMood }

/-- Scenario track whose default mood is Sad. -/
def sadTrack : Track :=
  { id := 2, spotify_id := "sp-s", name := "S", artist := "B",
    gain := some (-12), mood := some sadMood }

/-- Scenario store: the user's only listens are on 2024-05-02 — three with
effective mood Happy and one with effective mood Sad. -/
def mayDB : DB :=
  { tracks := [happyTrack, sadTrack],
    listens := [⟨1, 1, ⟨2024, 5, 2, 8, 0, 0⟩⟩, ⟨1, 1, ⟨2024, 5, 2, 9, 0, 0⟩⟩,
                ⟨1, 1, ⟨2024, 5, 2, 10, 0, 0⟩⟩, ⟨1, 2, ⟨2024, 5, 2, 11, 0, 0⟩⟩],
    nextTrackId := 3 }

/-! ## Theorems -/

/-- C1: `classify_mood` is a total pure function realizing the §4.1 bucket
table (buckets top-down, first match wins): Unknown for a missing gain,
Angry for gain > 3, Energetic for 0 < gain ≤ 3, Happy for −2 < gain ≤ 0,
Chill for −6 < gain ≤ −2, Calm for −10 < gain ≤ −6, Sad for
−14 < gain ≤ −10, Depressed for gain ≤ −14. -/
theorem c1_classify_mood_table (g : ℚ) :
    classify_mood none = unknownMood ∧
    (3 < g → classify_mood (some g) = angryMood) ∧
    (0 < g ∧ g ≤ 3 → classify_mood (some g) = energeticMood) ∧
    (-2 < g ∧ g ≤ 0 → classify_mood (some g) = happyMood) ∧
    (-6 < g ∧ g ≤ -2 → classify_mood (some g) = chillMood) ∧
    (-10 < g ∧ g ≤ -6 → classify_mood (some g) = calmMood) ∧
    (-14 < g ∧ g ≤ -10 → classify_mood (some g) = sadMood) ∧
    (g ≤ -14 → classify_mood (some g) = depressedMood) := by
  refine ⟨rfl, ?_, ?_, ?_, ?_, ?_, ?_, ?_⟩ <;>
    intro h <;>
    simp only [classify_mood] <;>
    split_ifs <;>
    first
      | rfl
      | (exfalso; rcases h with ⟨h1, h2⟩ <;> linarith)
      | (exfalso; linarith)

/-- Concrete instances of `c1_classify_mood_table`. -/
theorem c1_classify_mood_table_witness :
    classify_mood (some 5) = angryMood ∧ classify_mood (some (-7)) = calmMood :=
  ⟨(c1_classify_mood_table 5).2.1 (by norm_num),
   (c1_classify_mood_table (-7)).2.2.2.2.2.1 ⟨by norm_num, by norm_num⟩⟩

/-- Removing a key from the override dict removes its entry. -/
theorem dictGet_dictRemove (l : List (String × String)) (k : String) :
    dictGet (dictRemove l k) k = none := by
  simp only [dictGet, dictRemove]
  rw [List.find?_eq_none.mpr]
  · rfl
  · intro x hx
    rcases (List.mem_filter.mp hx) with ⟨_, hpx⟩
    simpa [bne] using hpx

/-- `find?` over the in-place update map of `dictSet`. -/
theorem find?_dictSetMap (l : List (String × String)) (k v : String) :
    (l.map (fun q => if q.1 == k then (k, v) else q)).find? (fun q => q.1 == k)
      = (l.find? (fun q => q.1 == k)).map (fun _ => (k, v)) := by
  rw [List.find?_map]
  have hpg : ((fun q : String × String => q.1 == k) ∘ fun q => if q.1 == k then (k, v) else q)
      = fun q : String × String => q.1 == k := by
    funext q
    by_cases hq : q.1 = k <;> simp [hq]
  rw [hpg]
  cases hf : l.find? (fun q => q.1 == k) with
  | none => rfl
  | some x =>
    have hx0 := List.find?_some hf
    have hx : (x.1 == k) = true := hx0
    have hxk : x.1 = k := by simpa using hx
    simp [hxk]

/-- Setting a key in the override dict makes lookup return its value. -/
theorem dictGet_dictSet_self (l : List (String × String)) (k v : String) :
    dictGet (dictSet l k v) k = some v := by
  by_cases hs : (l.find? (fun q => q.1 == k)).isSome = true
  · rcases Option.isSome_iff_exists.mp hs with ⟨x, hx⟩
    unfold dictGet dictSet
    rw [if_pos hs, find?_dictSetMap, hx]
    rfl
  · have hn : l.find? (fun q => q.1 == k) = none :=
      Option.not_isSome_iff_eq_none.mp (by simpa using hs)
    unfold dictGet dictSet
    rw [if_neg hs, List.find?_append, hn]
    simp

/-- C2: the override law.  For a stored track `t` and a mood `m` from the
fixed label set: when `m` equals `t`'s default mood, `set_override`
(`update_user_mood_override`) removes the override entry and the effective
mood (`get_track_mood`) is the default; when `m` differs, the effective
mood becomes `m`.  `get_track_mood` always returns the stored override when
present and the track default otherwise. -/
theorem c2_override_law (db : DB) (u : User) (t : Track) (m : String)
    (ht : db.tracks.find? (fun tr => tr.id == t.id) = some t)
    (hm : m ∈ get_available_moods) :
    (t.mood = some m →
      (update_user_mood_override db u t.id m).1 = true ∧
      dictGet ((update_user_mood_override db u t.id m).2.2).get_mood_overrides
        (toString t.id) = none ∧
      ((update_user_mood_override db u t.id m).2.2).get_track_mood t = t.mood) ∧
    (t.mood ≠ some m →
      (update_user_mood_override db u t.id m).1 = true ∧
      ((update_user_mood_override db u t.id m).2.2).get_track_mood t = some m) ∧
    (u.get_track_mood t =
      match dictGet u.get_mood_overrides (toString t.id) with
      | some v => some v
      | none => t.mood) := by
  refine ⟨?_, ?_, rfl⟩
  · intro heq
    have hbeq : (t.mood == some m) = true := by simp [heq]
    refine ⟨?_, ?_, ?_⟩ <;>
      simp [update_user_mood_override, hm, ht, hbeq, User.get_track_mood,
        User.remove_mood_override, User.get_mood_overrides, dictGet_dictRemove]
  · intro hne
    have hbeq : (t.mood == some m) = false := by simp [hne]
    refine ⟨?_, ?_⟩ <;>
      simp [update_user_mood_override, hm, ht, hbeq, User.get_track_mood,
        User.set_mood_override, User.get_mood_overrides, dictGet_dictSet_self]

/-- Concrete instance of `c2_override_law`: overriding `happyTrack` (default
Happy) with Sad stores the override; the effective mood becomes Sad. -/
theorem c2_override_law_witness :
    (update_user_mood_override mayDB mayUser happyTrack.id sadMood).1 = true ∧
    ((update_user_mood_override mayDB mayUser happyTrack.id sadMood).2.2).get_track_mood
      happyTrack = some sadMood :=
  (c2_override_law mayDB mayUser happyTrack sadMood (by decide) (by decide)).2.1
    (by decide)

/-- C6: resolving an already-stored external id returns the stored track
unchanged with zero secondary-catalog requests, for every catalog oracle —
in particular the stored mood is never re-classified even if the upstream
metric would now differ — and resolving the same id twice returns the same
stored track. -/
theorem c6_resolver_idempotent (db : DB) (st : SpotifyTrack) (t : Track)
    (h : db.tracks.find? (fun tr => tr.spotify_id == st.sid) = some t) :
    (∀ dz : Deezer, get_or_create_track dz db st = (t, db, 0)) ∧
    (∀ dz dz' : Deezer,
      (get_or_create_track dz' ((get_or_create_track dz db st).2.1) st).1 =
        (get_or_create_track dz db st).1) := by
  have h1 : ∀ dz : Deezer, get_or_create_track dz db st = (t, db, 0) := by
    intro dz
    simp [get_or_create_track, h]
  refine ⟨h1, ?_⟩
  intro dz dz'
  rw [h1 dz, h1 dz']

/-- Concrete instance of `c6_resolver_idempotent`: `happyTrack` is already
stored in `mayDB`, so resolving its id touches nothing — even with a
catalog oracle that would now report a very loud (Angry) gain. -/
theorem c6_resolver_idempotent_witness :
    get_or_create_track (dzConst 7 9) mayDB ⟨"sp-h", "H", "A"⟩ =
      (happyTrack, mayDB, 0) :=
  (c6_resolver_idempotent mayDB ⟨"sp-h", "H", "A"⟩ happyTrack (by decide)).1
    (dzConst 7 9)

/-- C7: resolving an unseen track when the catalog search raises, returns no
match, or the metrics fetch raises still persists and returns the new track
with the Unknown mood; the listens table is untouched and (the embedding
being a total function, every exception of the two request helpers being
mapped to `err` by their `except` blocks) no failure reaches the caller. -/
theorem c7_unknown_on_catalog_failure (dz : Deezer) (db : DB) (st : SpotifyTrack)
    (hnew : db.tracks.find? (fun tr => tr.spotify_id == st.sid) = none)
    (hfail : dz.search st.name st.artist = .err ∨
      dz.search st.name st.artist = .ok [] ∨
      (∃ d rest, dz.search st.name st.artist = .ok (d :: rest) ∧
        dz.metrics d = .err)) :
    ((get_or_create_track dz db st).1).mood = some unknownMood ∧
    (get_or_create_track dz db st).2.1.tracks =
      db.tracks ++ [(get_or_create_track dz db st).1] ∧
    (get_or_create_track dz db st).2.1.listens = db.listens := by
  rcases hfail with hs | hs | ⟨d, rest, hs, hm⟩
  · simp [get_or_create_track, hnew, get_deezer_id, hs]
  · simp [get_or_create_track, hnew, get_deezer_id, hs]
  · simp [get_or_create_track, hnew, get_deezer_id, hs,
      get_deezer_metrics_gain, hm, classify_mood]

/-- Concrete instance of `c7_unknown_on_catalog_failure`: with the catalog
unreachable, a fresh track is still stored, with the Unknown mood. -/
theorem c7_unknown_on_catalog_failure_witness :
    ((get_or_create_track dzDown emptyMayDB ⟨"sp-x", "X", "Y"⟩).1).mood =
      some unknownMood :=
  (c7_unknown_on_catalog_failure dzDown emptyMayDB ⟨"sp-x", "X", "Y"⟩
    (by decide) (Or.inl rfl)).1

/-- C8: validation failures mutate nothing.  A mood outside the fixed label
set makes `update_user_mood_override` return `False` with the store and the
user's override map unchanged, and makes the `/update-mood` endpoint answer
HTTP 400 with an explicit reason; a request missing `track_id` or `mood`
(Python-falsy: absent, 0, or empty), or naming a nonexistent track, also
gets HTTP 400 with no state mutation. -/
theorem c8_validation_no_mutation (db : DB) (u : User) (tid : Nat) (m : String)
    (mo : Option String) (tido : Option Nat) :
    (m ∉ get_available_moods →
      update_user_mood_override db u tid m = (false, db, u)) ∧
    (m ∉ get_available_moods → tid ≠ 0 → m ≠ "" →
      update_mood db u (some tid) (some m) =
        (⟨400, false, some "Invalid mood or track"⟩, db, u)) ∧
    (update_mood db u none mo =
      (⟨400, false, some "Missing track_id or mood"⟩, db, u)) ∧
    (update_mood db u tido none =
      (⟨400, false, some "Missing track_id or mood"⟩, db, u)) ∧
    (db.tracks.find? (fun t => t.id == tid) = none → tid ≠ 0 → m ≠ "" →
      update_mood db u (some tid) (some m) =
        (⟨400, false, some "Invalid mood or track"⟩, db, u)) := by
  have hbad : ∀ hm : m ∉ get_available_moods,
      update_user_mood_override db u tid m = (false, db, u) := by
    intro hm
    simp [update_user_mood_override, hm]
  refine ⟨hbad, ?_, ?_, ?_, ?_⟩
  · intro hm htid hms
    simp [update_mood, truthyNat, truthyStr, htid, hms, hbad hm]
  · rfl
  · cases tido with
    | none => rfl
    | some v => simp [update_mood, truthyStr]
  · intro hfind htid hms
    by_cases hm : m ∈ get_available_moods
    · simp [update_mood, truthyNat, truthyStr, htid, hms,
        update_user_mood_override, hm, hfind]
    · simp [update_mood, truthyNat, truthyStr, htid, hms, hbad hm]

/-- Concrete instance of `c8_validation_no_mutation`: the label "Bogus" is
rejected by the endpoint with HTTP 400 and no mutation. -/
theorem c8_validation_no_mutation_witness :
    update_mood mayDB mayUser (some 1) (some "Bogus") =
      (⟨400, false, some "Invalid mood or track"⟩, mayDB, mayUser) :=
  (c8_validation_no_mutation mayDB mayUser 1 "Bogus" none none).2.1
    (by decide) (by decide) (by decide)

/-- C9: a request through the `login_required` guard whose session user has
an expired credential and whose token refresh fails (missing refresh token
or a failing OAuth call) gets the session cleared and a redirect to /login;
the wrapped view — the only place streaming-API calls happen — is never
invoked. -/
theorem c9_auth_guard_expired_refresh_fail (resp : RefreshResp) (now : Int)
    (users : List User) (uid : Nat) (user : User) (viewRaises : Bool)
    (hfind : users.find? (fun u => u.id == uid) = some user)
    (hexp : user.is_token_expired now = true)
    (hfail : (refresh_user_tokens resp now user).1 = false) :
    login_required_wrapper resp now users (some uid) viewRaises =
      ⟨.redirect "/login", true, false⟩ := by
  simp [login_required_wrapper, hfind, hexp, hfail]

/-- Concrete instance of `c9_auth_guard_expired_refresh_fail`: an expired
user whose refresh call raises is logged out without the view running. -/
theorem c9_auth_guard_expired_refresh_fail_witness :
    login_required_wrapper .err 100
      [{ id := 1, refresh_token := some "r", token_expires_at := some 50 }]
      (some 1) false = ⟨.redirect "/login", true, false⟩ :=
  c9_auth_guard_expired_refresh_fail .err 100
    [{ id := 1, refresh_token := some "r", token_expires_at := some 50 }] 1
    { id := 1, refresh_token := some "r", token_expires_at := some 50 } false
    (by decide) (by decide) (by decide)

/-- C10: the fixed dropdown set of `get_available_moods` holds exactly the
seven labels Angry … Depressed and excludes the Unknown label, although
Unknown is a possible classifier output and track default; hence overriding
any track with the Unknown label is rejected without any change, and in
particular an existing override on a track whose default mood is Unknown
can never be removed by submitting that default. -/
theorem c10_unknown_excluded :
    get_available_moods = [angryMood, energeticMood, happyMood, chillMood,
      calmMood, sadMood, depressedMood] ∧
    unknownMood ∉ get_available_moods ∧
    (∀ (db : DB) (u : User) (tid : Nat),
      update_user_mood_override db u tid unknownMood = (false, db, u)) ∧
    (∀ (db : DB) (u : User) (tid : Nat),
      dictGet ((update_user_mood_override db u tid unknownMood).2.2).get_mood_overrides
          (toString tid) =
        dictGet u.get_mood_overrides (toString tid)) := by
  have hnm : unknownMood ∉ get_available_moods := by decide
  have hupd : ∀ (db : DB) (u : User) (tid : Nat),
      update_user_mood_override db u tid unknownMood = (false, db, u) := by
    intro db u tid
    simp [update_user_mood_override, hnm]
  exact ⟨rfl, hnm, hupd, fun db u tid => by rw [hupd]⟩

/-- Concrete instance of `c10_unknown_excluded`: submitting the Unknown
default of a track with an existing override leaves the override intact. -/
theorem c10_unknown_excluded_witness :
    update_user_mood_override emptyMayDB
      { id := 1, overrides := [("3", sadMood)] } 3 unknownMood =
      (false, emptyMayDB, { id := 1, overrides := [("3", sadMood)] }) :=
  (c10_unknown_excluded).2.2.1 emptyMayDB { id := 1, overrides := [("3", sadMood)] } 3

/-- C4: for a valid (year, month) the mood grid has exactly
`days_in_month y m` entries, the i-th carrying the date string of day i+1
of that month in order, and every day with no listens — whether or not the
user has any listens at all — is labeled with the No-Data label and count
0. -/
theorem c4_monthly_grid_complete (db : DB) (u : User) (y m : Nat)
    (hm : 1 ≤ m ∧ m ≤ 12) :
    (monthly_mood_grid db u y m).length = days_in_month y m ∧
    (∀ i (hi : i < (monthly_mood_grid db u y m).length),
      ((monthly_mood_grid db u y m).get ⟨i, hi⟩).day = date_string y m (i + 1)) ∧
    (∀ i (hi : i < (monthly_mood_grid db u y m).length),
      moods_for_day (get_monthly_listens_with_moods db u y m)
          (date_string y m (i + 1)) = [] →
      (monthly_mood_grid db u y m).get ⟨i, hi⟩ =
        ⟨date_string y m (i + 1), noDataLabel, 0⟩) := by
  refine ⟨by simp [monthly_mood_grid, month_days], ?_, ?_⟩
  · intro i hi
    simp [monthly_mood_grid, month_days, List.get_eq_getElem]
  · intro i hi hempty
    have hd : ((monthly_mood_grid db u y m).get ⟨i, hi⟩) =
        { day := date_string y m (i + 1),
          mood := dominant_mood (moods_for_day
            (get_monthly_listens_with_moods db u y m) (date_string y m (i + 1))),
          count := (moods_for_day
            (get_monthly_listens_with_moods db u y m) (date_string y m (i + 1))).length } := by
      simp [monthly_mood_grid, month_days, List.get_eq_getElem]
    rw [hd, hempty]
    simp [dominant_mood]

/-- Concrete instance of `c4_monthly_grid_complete`: the May 2024 grid of a
user with no listens has 31 entries and its first entry is the No-Data cell
of 2024-05-01. -/
theorem c4_monthly_grid_complete_witness :
    (monthly_mood_grid emptyMayDB mayUser 2024 5).length = days_in_month 2024 5 ∧
    (monthly_mood_grid emptyMayDB mayUser 2024 5).get
        ⟨0, by decide⟩ = ⟨date_string 2024 5 1, noDataLabel, 0⟩ :=
  ⟨(c4_monthly_grid_complete emptyMayDB mayUser 2024 5 ⟨by decide, by decide⟩).1,
   (c4_monthly_grid_complete emptyMayDB mayUser 2024 5 ⟨by decide, by decide⟩).2.2
     0 (by decide) (by decide)⟩

/-- C5 counterexample: in `mayDB` the user's only listens are on
2024-05-02 — three with effective mood Happy and one with effective mood
Sad (first conjunct) — yet the May 2024 grid labels that day with the
mojibake Unknown literal, not with the Happy label: the route's
`mood_scores` keys are mojibake-encoded, so no stored mood matches a key
and the score-averaging reduction falls through to its Unknown fallback
(and even with matching keys, averaging — not the mode — would pick Chill,
score 2 being closest to the average 2.25). -/
theorem c5_happy_day_counterexample :
    (get_monthly_listens_with_moods mayDB mayUser 2024 5).map (fun it => it.mood) =
      [some happyMood, some happyMood, some happyMood, some sadMood] ∧
    (monthly_mood_grid mayDB mayUser 2024 5).get? 1 =
      some ⟨"2024-05-02", unknownMojibake, 4⟩ ∧
    (unknownMojibake == happyMood) = false := by decide

/-- C5 amended: a user with zero listens in May 2024 gets 31 entries all
carrying the No-Data label with count 0; a user whose only listens on
2024-05-02 are 3 listens with effective mood Happy and 1 with effective
mood Sad gets that day labeled with the mojibake Unknown literal (not
Happy) and count 4. -/
theorem c5_may_2024_scenarios :
    ((monthly_mood_grid emptyMayDB mayUser 2024 5).length = 31 ∧
      (monthly_mood_grid emptyMayDB mayUser 2024 5).all
        (fun e => e.mood == noDataLabel && e.count == 0) = true) ∧
    (monthly_mood_grid mayDB mayUser 2024 5).get? 1 =
      some ⟨"2024-05-02", unknownMojibake, 4⟩ := by decide

/-- `get_or_create_track` never touches the listens table. -/
theorem gocT_listens (dz : Deezer) (db : DB) (st : SpotifyTrack) :
    (get_or_create_track dz db st).2.1.listens = db.listens := by
  cases hf : db.tracks.find? (fun tr => tr.spotify_id == st.sid) with
  | some t => simp [get_or_create_track, hf]
  | none =>
    cases hd : get_deezer_id dz st.name st.artist <;>
      simp [get_or_create_track, hf, hd]

/-- `get_or_create_track` only ever appends to the tracks table. -/
theorem gocT_tracks_grow (dz : Deezer) (db : DB) (st : SpotifyTrack) :
    ∃ ts, (get_or_create_track dz db st).2.1.tracks = db.tracks ++ ts := by
  cases hf : db.tracks.find? (fun tr => tr.spotify_id == st.sid) with
  | some t => exact ⟨[], by simp [get_or_create_track, hf]⟩
  | none =>
    cases hd : get_deezer_id dz st.name st.artist with
    | none =>
      exact ⟨[(get_or_create_track dz db st).1], by simp [get_or_create_track, hf, hd]⟩
    | some d =>
      exact ⟨[(get_or_create_track dz db st).1], by simp [get_or_create_track, hf, hd]⟩

/-- After `get_or_create_track`, the external id resolves (by the same
first-match query) to the returned track. -/
theorem gocT_find_after (dz : Deezer) (db : DB) (st : SpotifyTrack) :
    (get_or_create_track dz db st).2.1.tracks.find?
        (fun tr => tr.spotify_id == st.sid) = some (get_or_create_track dz db st).1 := by
  cases hf : db.tracks.find? (fun tr => tr.spotify_id == st.sid) with
  | some t => simp [get_or_create_track, hf]
  | none =>
    cases hd : get_deezer_id dz st.name st.artist <;>
      simp [get_or_create_track, hf, hd, List.find?_append]

/-- `dbGrows` is reflexive. -/
theorem dbGrows_refl (db : DB) : dbGrows db db :=
  ⟨⟨[], by simp⟩, ⟨[], by simp⟩⟩

/-- `dbGrows` is transitive. -/
theorem dbGrows_trans {a b c : DB} (h1 : dbGrows a b) (h2 : dbGrows b c) :
    dbGrows a c := by
  obtain ⟨⟨ts1, ht1⟩, ⟨ls1, hl1⟩⟩ := h1
  obtain ⟨⟨ts2, ht2⟩, ⟨ls2, hl2⟩⟩ := h2
  exact ⟨⟨ts1 ++ ts2, by simp [ht2, ht1]⟩, ⟨ls1 ++ ls2, by simp [hl2, hl1]⟩⟩

/-- A successful first-match track query stays successful as the tables
grow. -/
theorem find?_tracks_grow {db db' : DB} {p : Track → Bool} {x : Track}
    (hg : dbGrows db db') (h : db.tracks.find? p = some x) :
    db'.tracks.find? p = some x := by
  obtain ⟨⟨ts, hts⟩, _⟩ := hg
  rw [hts, List.find?_append, h]
  rfl

/-- Stored listens stay stored as the tables grow. -/
theorem mem_listens_grow {db db' : DB} {l : Listen}
    (hg : dbGrows db db') (h : l ∈ db.listens) : l ∈ db'.listens := by
  obtain ⟨_, ⟨ls, hls⟩⟩ := hg
  rw [hls]
  exact List.mem_append_left _ h

/-- A settled playback event stays settled as the tables grow. -/
theorem itemSettled_grow {uid : Nat} {db db' : DB} {item : SpotifyItem}
    (hg : dbGrows db db') (h : itemSettled uid db item) :
    itemSettled uid db' item := by
  obtain ⟨t, hfind, hmem⟩ := h
  exact ⟨t, find?_tracks_grow hg hfind, mem_listens_grow hg hmem⟩

/-- One step of the recorder loop only appends rows. -/
theorem save_one_grows (dz : Deezer) (uid : Nat) (db : DB) (c : Nat)
    (item : SpotifyItem) : dbGrows db (save_one dz uid (db, c) item).1 := by
  obtain ⟨ts, hts⟩ := gocT_tracks_grow dz db item.track
  have hls := gocT_listens dz db item.track
  cases hf : db.listens.find? (fun l =>
      l.user_id == uid && l.track_id == (get_or_create_track dz db item.track).1.id &&
        l.played_at == normalize_played_at item.played_at) with
  | some l =>
    refine ⟨⟨ts, ?_⟩, ⟨[], ?_⟩⟩ <;> simp [save_one, hls, hf, hts]
  | none =>
    refine ⟨⟨ts, ?_⟩, ⟨[⟨uid, (get_or_create_track dz db item.track).1.id,
      normalize_played_at item.played_at⟩], ?_⟩⟩ <;> simp [save_one, hls, hf, hts]

/-- The whole recorder loop only appends rows. -/
theorem foldl_save_grows (dz : Deezer) (uid : Nat) :
    ∀ (items : List SpotifyItem) (db : DB) (c : Nat),
      dbGrows db (items.foldl (save_one dz uid) (db, c)).1 := by
  intro items
  induction items with
  | nil => intro db c; exact dbGrows_refl db
  | cons item rest ih =>
    intro db c
    have hstep := save_one_grows dz uid db c item
    have hrest := ih (save_one dz uid (db, c) item).1 (save_one dz uid (db, c) item).2
    rw [List.foldl_cons]
    exact dbGrows_trans hstep hrest

/-- After one step of the recorder loop, the processed event is settled. -/
theorem save_one_settles (dz : Deezer) (uid : Nat) (db : DB) (c : Nat)
    (item : SpotifyItem) : itemSettled uid (save_one dz uid (db, c) item).1 item := by
  have hfa := gocT_find_after dz db item.track
  have hls := gocT_listens dz db item.track
  cases hf : db.listens.find? (fun l =>
      l.user_id == uid && l.track_id == (get_or_create_track dz db item.track).1.id &&
        l.played_at == normalize_played_at item.played_at) with
  | some l =>
    have hpl := List.find?_some hf
    have hmem := List.mem_of_find?_eq_some hf
    have hl : l = ⟨uid, (get_or_create_track dz db item.track).1.id,
        normalize_played_at item.played_at⟩ := by
      have h1 : (l.user_id = uid ∧
          l.track_id = (get_or_create_track dz db item.track).1.id) ∧
          l.played_at = normalize_played_at item.played_at := by
        simpa [Bool.and_eq_true] using hpl
      obtain ⟨⟨ha, hb⟩, hc⟩ := h1
      cases l
      simp_all
    refine ⟨(get_or_create_track dz db item.track).1, ?_, ?_⟩
    · simp [save_one, hls, hf, hfa]
    · rw [← hl]
      simp [save_one, hls, hf, hls, hmem]
  | none =>
    refine ⟨(get_or_create_track dz db item.track).1, ?_, ?_⟩
    · simp [save_one, hls, hf, hfa]
    · simp [save_one, hls, hf]

/-- After the recorder loop, every event of the batch is settled. -/
theorem foldl_save_settles (dz : Deezer) (uid : Nat) :
    ∀ (items : List SpotifyItem) (db : DB) (c : Nat),
      ∀ item ∈ items, itemSettled uid ((items.foldl (save_one dz uid) (db, c)).1) item := by
  intro items
  induction items with
  | nil => intro db c item h; cases h
  | cons hd rest ih =>
    intro db c item hmem
    rw [List.foldl_cons]
    rcases List.mem_cons.mp hmem with heq | htl
    · subst heq
      have hstep := save_one_settles dz uid db c item
      have hgrow := foldl_save_grows dz uid rest (save_one dz uid (db, c) item).1
        (save_one dz uid (db, c) item).2
      exact itemSettled_grow hgrow hstep
    · exact ih (save_one dz uid (db, c) hd).1 (save_one dz uid (db, c) hd).2 item htl

/-- A settled event is skipped by the recorder loop: the step is the
identity on both the store and the counter. -/
theorem save_one_noop (dz : Deezer) (uid : Nat) (db : DB) (c : Nat)
    (item : SpotifyItem) (h : itemSettled uid db item) :
    save_one dz uid (db, c) item = (db, c) := by
  obtain ⟨t, hfind, hmem⟩ := h
  have hres : get_or_create_track dz db item.track = (t, db, 0) := by
    simp [get_or_create_track, hfind]
  have hsome : (db.listens.find? (fun l =>
      l.user_id == uid && l.track_id == t.id &&
        l.played_at == normalize_played_at item.played_at)).isSome = true := by
    refine List.find?_isSome.mpr ⟨_, hmem, ?_⟩
    simp
  rcases Option.isSome_iff_exists.mp hsome with ⟨x, hx⟩
  simp [save_one, hres, hx]

/-- A batch of settled events is a no-op for the whole recorder loop. -/
theorem foldl_save_noop (dz : Deezer) (uid : Nat) :
    ∀ (items : List SpotifyItem) (db : DB) (c : Nat),
      (∀ item ∈ items, itemSettled uid db item) →
      items.foldl (save_one dz uid) (db, c) = (db, c) := by
  intro items
  induction items with
  | nil => intro db c _; rfl
  | cons hd rest ih =>
    intro db c hall
    rw [List.foldl_cons, save_one_noop dz uid db c hd (hall hd (List.mem_cons_self hd rest))]
    exact ih db c (fun item hmem => hall item (List.mem_cons_of_mem hd hmem))

/-- One recorder step either skips (store listens and counter unchanged) or
appends exactly one listen that was not yet stored, bumping the counter. -/
theorem save_one_shape (dz : Deezer) (uid : Nat) (db : DB) (c : Nat)
    (item : SpotifyItem) :
    ((save_one dz uid (db, c) item).1.listens = db.listens ∧
      (save_one dz uid (db, c) item).2 = c) ∨
    (∃ l : Listen, (save_one dz uid (db, c) item).1.listens = db.listens ++ [l] ∧
      (save_one dz uid (db, c) item).2 = c + 1 ∧ l ∉ db.listens) := by
  have hls := gocT_listens dz db item.track
  cases hf : db.listens.find? (fun l =>
      l.user_id == uid && l.track_id == (get_or_create_track dz db item.track).1.id &&
        l.played_at == normalize_played_at item.played_at) with
  | some l =>
    left
    constructor <;> simp [save_one, hls, hf]
  | none =>
    right
    refine ⟨⟨uid, (get_or_create_track dz db item.track).1.id,
      normalize_played_at item.played_at⟩, ?_, ?_, ?_⟩
    · simp [save_one, hls, hf]
    · simp [save_one, hls, hf]
    · intro hmem
      have := List.find?_eq_none.mp hf _ hmem
      simp at this

/-- The recorder loop appends exactly the new rows — pairwise distinct and
none of them previously stored — and counts them. -/
theorem foldl_save_fresh (dz : Deezer) (uid : Nat) :
    ∀ (items : List SpotifyItem) (db : DB) (c : Nat),
      ∃ fresh : List Listen,
        (items.foldl (save_one dz uid) (db, c)).1.listens = db.listens ++ fresh ∧
        (items.foldl (save_one dz uid) (db, c)).2 = c + fresh.length ∧
        fresh.Nodup ∧ ∀ l ∈ fresh, l ∉ db.listens := by
  intro items
  induction items with
  | nil =>
    intro db c
    exact ⟨[], by simp, by simp, List.nodup_nil, by simp⟩
  | cons item rest ih =>
    intro db c
    have hshape := save_one_shape dz uid db c item
    rcases hstep : save_one dz uid (db, c) item with ⟨db1, c1⟩
    rw [hstep] at hshape
    dsimp only at hshape
    obtain ⟨fresh, h1, h2, h3, h4⟩ := ih db1 c1
    rw [List.foldl_cons, hstep]
    rcases hshape with ⟨hl, hc⟩ | ⟨l0, hl, hc, hnotin⟩
    · exact ⟨fresh, by rw [h1, hl], by rw [h2, hc], h3,
        fun l hlf => by rw [← hl]; exact h4 l hlf⟩
    · refine ⟨l0 :: fresh, ?_, ?_, ?_, ?_⟩
      · rw [h1, hl]
        simp
      · rw [h2, hc]
        simp only [List.length_cons]
        omega
      · refine List.nodup_cons.mpr ⟨?_, h3⟩
        intro hmem
        exact h4 l0 hmem (by rw [hl]; exact List.mem_append_right _ (by simp))
      · intro l hlf
        rcases List.mem_cons.mp hlf with heq | htl
        · subst heq; exact hnotin
        · intro hdb
          exact h4 l htl (by rw [hl]; exact List.mem_append_left _ hdb)

/-- C3: the recorder (`save_listening_history`) appends exactly one row per
event whose (user, resolved track, normalized timestamp) triple was not yet
stored — the appended rows are pairwise distinct and disjoint from the
stored rows — returns exactly the number of appended rows, leaves every
submitted event stored afterwards, and is idempotent under replay:
resubmitting the same batch returns 0 and changes nothing. -/
theorem c3_recorder_idempotent (dz : Deezer) (db : DB) (uid : Nat)
    (items : List SpotifyItem) :
    (∃ fresh : List Listen,
      (save_listening_history dz db uid items).2.listens = db.listens ++ fresh ∧
      (save_listening_history dz db uid items).1 = fresh.length ∧
      fresh.Nodup ∧ ∀ l ∈ fresh, l ∉ db.listens) ∧
    (∀ item ∈ items,
      itemSettled uid (save_listening_history dz db uid items).2 item) ∧
    save_listening_history dz (save_listening_history dz db uid items).2 uid items =
      (0, (save_listening_history dz db uid items).2) := by
  refine ⟨?_, ?_, ?_⟩
  · obtain ⟨fresh, h1, h2, h3, h4⟩ := foldl_save_fresh dz uid items db 0
    exact ⟨fresh, h1, by simpa using h2, h3, h4⟩
  · exact fun item hmem => foldl_save_settles dz uid items db 0 item hmem
  · have hall := foldl_save_settles dz uid items db 0
    have hnoop := foldl_save_noop dz uid items
      (items.foldl (save_one dz uid) (db, 0)).1 0 hall
    have hX : (save_listening_history dz db uid items).2 =
        (items.foldl (save_one dz uid) (db, 0)).1 := rfl
    rw [hX]
    show ((items.foldl (save_one dz uid)
        ((items.foldl (save_one dz uid) (db, 0)).1, 0)).2,
      (items.foldl (save_one dz uid)
        ((items.foldl (save_one dz uid) (db, 0)).1, 0)).1) =
      (0, (items.foldl (save_one dz uid) (db, 0)).1)
    rw [hnoop]

/-- Concrete instance of `c3_recorder_idempotent`: replaying a one-event
batch (recorded with the catalog down) inserts nothing and returns 0. -/
theorem c3_recorder_idempotent_witness :
    save_listening_history dzDown
        (save_listening_history dzDown emptyMayDB 1
          [⟨⟨⟨2024, 5, 2, 8, 0, 0⟩, some 0⟩, ⟨"sp-x", "X", "Y"⟩⟩]).2 1
        [⟨⟨⟨2024, 5, 2, 8, 0, 0⟩, some 0⟩, ⟨"sp-x", "X", "Y"⟩⟩] =
      (0, (save_listening_history dzDown emptyMayDB 1
        [⟨⟨⟨2024, 5, 2, 8, 0, 0⟩, some 0⟩, ⟨"sp-x", "X", "Y"⟩⟩]).2) :=
  (c3_recorder_idempotent dzDown emptyMayDB 1
    [⟨⟨⟨2024, 5, 2, 8, 0, 0⟩, some 0⟩, ⟨"sp-x", "X", "Y"⟩⟩]).2.2
